import Mathlib

/-!
Verification development for the m3-pyapi client library.

The development shallowly embeds the two source modules:

* `models.py` — the recursive typed deserializer `from_dict`, the schema
  descriptors (Python dataclasses with their declared field types), and the
  non-null projection `CachedAncillaryDatum.properties`.
* `microservices.py` — the status-to-error mapper `handle_status` and the
  `Microservice` client (constructor, `url_to`, `authenticate`,
  `authenticated`, `_authorization_header`, and the privileged endpoint
  `Annosaurus.create_ancillary_datum`).

Python values flowing through the deserializer are modelled by the inductive
`PyObj` (JSON-like trees plus dataclass instances); Python runtime types by
`PyType`.  Exceptions are modelled by `Except`; a Python function that
catches all exceptions and returns a value becomes a total Lean function.
Network calls are modelled by returning the `Request` value the code would
issue: an operation that fails before issuing a request returns an error and
no `Request`, which captures that no network call is performed.
-/

/-- A Python/JSON-like runtime value: `None`, numbers, strings, lists,
dicts with string keys, and dataclass instances (`vinst cls slots`, where
`slots` lists every declared field of class `cls` in declaration order). -/
inductive PyObj where
  | vnone
  | vint (n : Int)
  | vstr (s : String)
  | vlist (elems : List PyObj)
  | vdict (entries : List (String × PyObj))
  | vinst (cls : String) (slots : List (String × PyObj))
  deriving Repr

/-- A Python runtime type as passed to `from_dict`: primitives, `List[T]`,
or a dataclass together with its declared fields (name and declared type, in
declaration order), mirroring what `dataclasses.fields` reports. -/
inductive PyType where
  | str
  | int
  | float
  | list (elem : PyType)
  | dataclass (name : String) (flds : List (String × PyType))
  deriving Repr

mutual

/-- Embedding of `models.from_dict` (models.py lines 8-14):

```
def from_dict(dtype, data):
    try:
        field_map = {field.name: field.type for field in fields(dtype)}
        return dtype(**{key: from_dict(field_map[key], val) for key, val in data.items()})
    except:
        return data
```

The `try`/bare-`except` makes the function total: `fields(dtype)` raises
unless `dtype` is a dataclass, `data.items()` raises unless `data` is a
dict, and `field_map[key]` raises (`KeyError`) as soon as one key of `data`
is not a declared field — in each of those cases the original `data` is
returned unchanged.  Otherwise the instance is constructed with every
declared field bound to the recursively converted value when its key is
present in `data` and to the default `None` otherwise. -/
def from_dict (dtype : PyType) (data : PyObj) : PyObj :=
  match dtype, data with
  | .dataclass cls flds, .vdict kvs =>
      if kvs.all (fun kv => (List.lookup kv.1 flds).isSome) then
        .vinst cls (fromFields flds kvs)
      else
        .vdict kvs
  | _, d => d
termination_by sizeOf dtype

/-- Slot construction for `dtype(**kwargs)` in `from_dict`: every declared
field, in declaration order, is bound to `from_dict` of the matching value
of `kvs` when present and to `None` otherwise (every field of every model
dataclass has default `None`). -/
def fromFields (flds : List (String × PyType)) (kvs : List (String × PyObj)) :
    List (String × PyObj) :=
  match flds with
  | [] => []
  | (fname, ftype) :: rest =>
      (fname, match List.lookup fname kvs with
              | some v => from_dict ftype v
              | none => .vnone) :: fromFields rest kvs
termination_by sizeOf flds

end

/-- Declared fields of dataclass `Association` (models.py). -/
def associationFields : List (String × PyType) :=
  [("link_name", .str), ("link_value", .str), ("to_concept", .str),
   ("mime_type", .str), ("uuid", .str)]

/-- The `Association` dataclass as a runtime type. -/
def AssociationT : PyType := .dataclass "Association" associationFields

/-- Declared fields of dataclass `ImageReference` (models.py). -/
def imageReferenceFields : List (String × PyType) :=
  [("description", .str), ("url", .str), ("height_pixels", .int),
   ("width_pixels", .int), ("format", .str), ("uuid", .str)]

/-- The `ImageReference` dataclass as a runtime type. -/
def ImageReferenceT : PyType := .dataclass "ImageReference" imageReferenceFields

/-- Declared fields of dataclass `Observation` (models.py): note the two
sequence-of-dataclass fields `associations : List[Association]` and
`image_references : List[ImageReference]`. -/
def observationFields : List (String × PyType) :=
  [("observation_uuid", .str), ("concept", .str), ("observer", .str),
   ("observation_timestamp", .str), ("video_reference_uuid", .str),
   ("imaged_moment_uuid", .str), ("elapsed_time_millis", .int),
   ("recorded_timestamp", .str), ("group", .str), ("activity", .str),
   ("associations", .list AssociationT),
   ("image_references", .list ImageReferenceT)]

/-- The `Observation` dataclass as a runtime type. -/
def ObservationT : PyType := .dataclass "Observation" observationFields

/-- Declared fields of dataclass `CachedAncillaryDatum` (models.py). -/
def cachedAncillaryDatumFields : List (String × PyType) :=
  [("uuid", .str), ("imaged_moment_uuid", .str),
   ("latitude", .float), ("longitude", .float), ("depth_meters", .float),
   ("altitude_meters", .float), ("crs", .str),
   ("salinity", .float), ("temperature_celsius", .float), ("oxygen", .float),
   ("pressure_dbar", .float), ("light_transmission", .float),
   ("x", .float), ("y", .float), ("z", .float),
   ("pose_position_units", .str), ("phi", .float), ("theta", .float),
   ("psi", .float)]

/-- The `CachedAncillaryDatum` dataclass as a runtime type. -/
def CachedAncillaryDatumT : PyType :=
  .dataclass "CachedAncillaryDatum" cachedAncillaryDatumFields

/-- A value held in a slot of a `CachedAncillaryDatum` instance: a string or
a number.  Python `float` slots are modelled by `Rat`: no arithmetic is ever
performed on them by the library, values are only stored, compared against
`None` and copied. -/
inductive FieldValue where
  | s (v : String)
  | f (v : Rat)
  deriving DecidableEq, Repr

/-- Embedding of the dataclass `CachedAncillaryDatum` (models.py): every
declared field defaults to `None`, modelled by `Option` with default
`none`. -/
structure CachedAncillaryDatum where
  uuid : Option String := none
  imaged_moment_uuid : Option String := none
  latitude : Option Rat := none
  longitude : Option Rat := none
  depth_meters : Option Rat := none
  altitude_meters : Option Rat := none
  crs : Option String := none
  salinity : Option Rat := none
  temperature_celsius : Option Rat := none
  oxygen : Option Rat := none
  pressure_dbar : Option Rat := none
  light_transmission : Option Rat := none
  x : Option Rat := none
  y : Option Rat := none
  z : Option Rat := none
  pose_position_units : Option String := none
  phi : Option Rat := none
  theta : Option Rat := none
  psi : Option Rat := none
  deriving DecidableEq, Repr

/-- Embedding of `dataclasses.asdict` specialised to `CachedAncillaryDatum`
(no nested dataclasses): the mapping from each declared field name to its
slot value, in declaration order. -/
def CachedAncillaryDatum.asdict (d : CachedAncillaryDatum) :
    List (String × Option FieldValue) :=
  [("uuid", d.uuid.map .s),
   ("imaged_moment_uuid", d.imaged_moment_uuid.map .s),
   ("latitude", d.latitude.map .f),
   ("longitude", d.longitude.map .f),
   ("depth_meters", d.depth_meters.map .f),
   ("altitude_meters", d.altitude_meters.map .f),
   ("crs", d.crs.map .s),
   ("salinity", d.salinity.map .f),
   ("temperature_celsius", d.temperature_celsius.map .f),
   ("oxygen", d.oxygen.map .f),
   ("pressure_dbar", d.pressure_dbar.map .f),
   ("light_transmission", d.light_transmission.map .f),
   ("x", d.x.map .f),
   ("y", d.y.map .f),
   ("z", d.z.map .f),
   ("pose_position_units", d.pose_position_units.map .s),
   ("phi", d.phi.map .f),
   ("theta", d.theta.map .f),
   ("psi", d.psi.map .f)]

/-- Embedding of the `CachedAncillaryDatum.properties` view (models.py
lines 49-51):

```
@property
def properties(self):
    return {k: v for k, v in asdict(self).items() if v is not None}
```

keeping, in declaration order, exactly the entries of `asdict` whose value
is not `None`. -/
def CachedAncillaryDatum.properties (d : CachedAncillaryDatum) :
    List (String × FieldValue) :=
  d.asdict.filterMap (fun kv => kv.2.map (fun v => (kv.1, v)))

/-- An HTTP response as consumed by `handle_status`: the status code and the
body.  The body is modelled as a string; `response.content.decode()` is the
identity on this model. -/
structure HttpResponse where
  status_code : Nat
  content : String
  deriving DecidableEq, Repr

/-- The error taxonomy raised by `handle_status` (microservices.py):
`BadRequestError(message)`, `NotFoundError(message)`, `TimeoutError()` (no
payload), and the generic `Exception(response)` wrapping the full
response. -/
inductive StatusError where
  | badRequestError (message : String)
  | notFoundError (message : String)
  | timeoutError
  | genericException (response : HttpResponse)
  deriving DecidableEq, Repr

/-- Embedding of `handle_status` (microservices.py lines 40-50): returns
normally (`.ok ()`) on status 200 and raises the mapped error otherwise.
It reads only the response, so it has no effect on any client state. -/
def handle_status (response : HttpResponse) : Except StatusError Unit :=
  if response.status_code = 200 then .ok ()
  else if response.status_code = 400 then .error (.badRequestError response.content)
  else if response.status_code = 404 then .error (.notFoundError response.content)
  else if response.status_code = 504 then .error .timeoutError
  else .error (.genericException response)

/-- Errors raised by the authentication machinery of `Microservice`:
`AuthenticationError(client_secret)` and `AuthenticationMissingError()`. -/
inductive AuthError where
  | authenticationError (client_secret : String)
  | authenticationMissingError
  deriving DecidableEq, Repr

/-- Session state of a `Microservice` client: the stored base URL and the
stored token `_jwt`. -/
structure Microservice where
  _base_url : String
  _jwt : String
  deriving DecidableEq, Repr

/-- Embedding of `Microservice.__init__` (microservices.py lines 55-57):

```
self._base_url = base_url + ('/' if base_url[-1] != '/' else '')
self._jwt = ''
```

`base_url[-1]` is the last character of `base_url`; on the empty string the
index raises `IndexError` before any state is stored, modelled by `none`. -/
def Microservice.init (base_url : String) : Option Microservice :=
  match base_url.data.getLast? with
  | none => none
  | some c => some ⟨base_url ++ (if c ≠ '/' then "/" else ""), ""⟩

/-- Python `endpoint.split('/')` on the character list of `endpoint`:
splitting on `'/'`, keeping empty segments (so `splitSlash "".data = [""]`,
like Python). -/
def splitSlash : List Char → List String
  | [] => [""]
  | c :: rest =>
      match splitSlash rest with
      | [] => []
      | s :: tail =>
          if c = '/' then "" :: s :: tail
          else String.mk (c :: s.data) :: tail

/-- Embedding of `Microservice.url_to` (microservices.py lines 59-61):

```
endpoint_parts = filter(bool, endpoint.split('/'))
return self._base_url + '/'.join(endpoint_parts)
```

`filter(bool, ...)` keeps exactly the non-empty segments. -/
def Microservice.url_to (m : Microservice) (endpoint : String) : String :=
  m._base_url ++
    String.intercalate "/" ((splitSlash endpoint.data).filter (fun s => !s.isEmpty))

/-- The response to the `POST {base}/auth` request as seen by
`Microservice.authenticate`: the status code and the `access_token` field
of the decoded JSON body. -/
structure AuthResponse where
  status_code : Nat
  access_token : String
  deriving DecidableEq, Repr

/-- Embedding of `Microservice.authenticate` (microservices.py lines
63-74), parametrised by the response the server returns to the
`POST {base}/auth` request: on status 200 it stores
`response.json()['access_token']` into `_jwt`; on any other status it
raises `AuthenticationError(client_secret)` and leaves the state
untouched. -/
def Microservice.authenticate (m : Microservice) (client_secret : String)
    (response : AuthResponse) : Except AuthError Microservice :=
  if response.status_code = 200 then
    .ok { m with _jwt := response.access_token }
  else
    .error (.authenticationError client_secret)

/-- Embedding of the `Microservice.authenticated` property:
`self._jwt != ''`. -/
def Microservice.authenticated (m : Microservice) : Bool :=
  m._jwt != ""

/-- Embedding of `Microservice._authorization_header` (microservices.py
lines 76-80): raises `AuthenticationMissingError` while unauthenticated,
otherwise returns the bearer header built from the stored token. -/
def Microservice._authorization_header (m : Microservice) :
    Except AuthError (List (String × String)) :=
  if !m.authenticated then .error .authenticationMissingError
  else .ok [("Authorization", "BEARER " ++ m._jwt)]

/-- An HTTP request as issued by an endpoint method: method, URL, headers
and form payload.  An operation of the model that returns an error instead
of a `Request` never reaches the network. -/
structure Request where
  method : String
  url : String
  headers : List (String × String)
  payload : List (String × FieldValue)
  deriving DecidableEq, Repr

/-- The `Annosaurus` service client is a `Microservice` (its `__init__`
only delegates to the base class). -/
abbrev Annosaurus := Microservice

/-- Embedding of `Annosaurus.create_ancillary_datum` (microservices.py
lines 109-112) up to the point where the request is issued:

```
response = requests.post(self.url_to('v1/ancillarydata'),
                         headers=self._authorization_header,
                         data=ancillary_datum.properties)
```

Python evaluates the arguments before any network activity, so an
`AuthenticationMissingError` raised by `self._authorization_header`
propagates before any request is sent; the model then returns the error and
no `Request`. -/
def Annosaurus.create_ancillary_datum (m : Annosaurus)
    (ancillary_datum : CachedAncillaryDatum) : Except AuthError Request :=
  match m._authorization_header with
  | .error e => .error e
  | .ok headers =>
      .ok ⟨"POST", m.url_to "v1/ancillarydata", headers, ancillary_datum.properties⟩

/-- Whether a value is a constructed dataclass instance (a typed record). -/
def PyObj.isRecord : PyObj → Bool
  | .vinst _ _ => true
  | _ => false

/-- A `str` such that the stored base URL of a constructed client ends in
exactly one separator: its last character is `'/'` and the character before
it (when any) is not. -/
def endsInSingleSep (s : String) : Prop :=
  s.data.getLast? = some '/' ∧ s.data.dropLast.getLast? ≠ some '/'

/-- On a type that is not a dataclass, `from_dict` returns the data
unchanged (`dataclasses.fields` raises, and the bare `except` returns
`data`). -/
theorem from_dict_non_dataclass (t : PyType) (v : PyObj)
    (h : ∀ c flds, t ≠ PyType.dataclass c flds) : from_dict t v = v := by
  cases t with
  | dataclass c flds => exact absurd rfl (h c flds)
  | _ => cases v <;> simp [from_dict]

/-- On data that is not a dict, `from_dict` returns the data unchanged
(`data.items()` raises, and the bare `except` returns `data`). -/
theorem from_dict_non_dict (t : PyType) (v : PyObj)
    (h : ∀ kvs, v ≠ PyObj.vdict kvs) : from_dict t v = v := by
  cases t <;> cases v <;> first | exact absurd rfl (h _) | rfl | simp [from_dict]

/-- When some key of the dict is not a declared field, `from_dict` returns
the whole dict unchanged (`field_map[key]` raises `KeyError`, and the bare
`except` returns `data`). -/
theorem from_dict_undeclared_key (c : String) (flds : List (String × PyType))
    (kvs : List (String × PyObj))
    (h : ∃ kv ∈ kvs, (List.lookup kv.1 flds).isNone) :
    from_dict (PyType.dataclass c flds) (PyObj.vdict kvs) = PyObj.vdict kvs := by
  rw [from_dict]
  obtain ⟨kv, hmem, hnone⟩ := h
  have hna : ¬ kvs.all (fun kv => (List.lookup kv.1 flds).isSome) = true := by
    intro hall
    rw [List.all_eq_true] at hall
    have hs := hall kv hmem
    rw [Option.isNone_iff_eq_none] at hnone
    rw [hnone] at hs
    simp at hs
  simp [hna]

/-- Classification of `from_dict`: it is total and every call returns
either the original data unchanged or an instance of the requested
dataclass built from a dict. -/
theorem from_dict_classify (t : PyType) (v : PyObj) :
    from_dict t v = v ∨
    ∃ c flds kvs, t = PyType.dataclass c flds ∧ v = PyObj.vdict kvs ∧
      from_dict t v = PyObj.vinst c (fromFields flds kvs) := by
  cases t with
  | dataclass c flds =>
      cases v with
      | vdict kvs =>
          by_cases h : kvs.all (fun kv => (List.lookup kv.1 flds).isSome) = true
          · right
            exact ⟨c, flds, kvs, rfl, rfl, by rw [from_dict]; simp [h]⟩
          · left
            rw [from_dict]
            simp [h]
      | _ => left; simp [from_dict]
  | _ => left; exact from_dict_non_dataclass _ _ (by intro c flds h; cases h)

/-- C1 (counterexample): the claim that `from_dict` recurses element-wise
into a sequence-of-schema field is false on the code.  Deserializing an
`Observation` dict whose `associations` value is a two-element list of
`Association`-shaped dicts yields an `Observation` instance whose
`associations` slot still holds the two raw dicts, unchanged and untyped:
`from_dict(List[Association], val)` calls `dataclasses.fields` on the
`List[...]` type object, which raises `TypeError`, so the bare `except`
returns the raw list. -/
theorem from_dict_seq_counterexample :
    from_dict ObservationT
      (PyObj.vdict [("associations", PyObj.vlist
        [PyObj.vdict [("link_name", PyObj.vstr "a"), ("link_value", PyObj.vstr "b")],
         PyObj.vdict [("link_name", PyObj.vstr "c"), ("link_value", PyObj.vstr "d")]])]) =
    PyObj.vinst "Observation"
      [("observation_uuid", PyObj.vnone), ("concept", PyObj.vnone),
       ("observer", PyObj.vnone), ("observation_timestamp", PyObj.vnone),
       ("video_reference_uuid", PyObj.vnone), ("imaged_moment_uuid", PyObj.vnone),
       ("elapsed_time_millis", PyObj.vnone), ("recorded_timestamp", PyObj.vnone),
       ("group", PyObj.vnone), ("activity", PyObj.vnone),
       ("associations", PyObj.vlist
        [PyObj.vdict [("link_name", PyObj.vstr "a"), ("link_value", PyObj.vstr "b")],
         PyObj.vdict [("link_name", PyObj.vstr "c"), ("link_value", PyObj.vstr "d")]]),
       ("image_references", PyObj.vnone)] ∧
    PyObj.isRecord
      (PyObj.vdict [("link_name", PyObj.vstr "a"), ("link_value", PyObj.vstr "b")]) =
      false ∧
    PyObj.isRecord
      (PyObj.vdict [("link_name", PyObj.vstr "c"), ("link_value", PyObj.vstr "d")]) =
      false := by
  refine ⟨?_, rfl, rfl⟩
  simp [from_dict, fromFields, ObservationT, observationFields, AssociationT,
    ImageReferenceT, List.lookup]

/-- C1 (amended): for a field declared as sequence-of-schema, `from_dict`
does not recurse element-wise; the raw sequence of mappings is stored in
the slot unchanged (hence in input order and without deduplication, but as
untyped dicts, not typed records).  In general `from_dict` on any `List[T]`
type returns its input unchanged, and an `Observation` dict carrying any
list under `"associations"` deserializes to an instance whose
`associations` slot is that very list. -/
theorem from_dict_seq_raw :
    (∀ (t : PyType) (v : PyObj), from_dict (PyType.list t) v = v) ∧
    (∀ assocs : List PyObj,
      from_dict ObservationT
          (PyObj.vdict [("associations", PyObj.vlist assocs)]) =
        PyObj.vinst "Observation"
          [("observation_uuid", PyObj.vnone), ("concept", PyObj.vnone),
           ("observer", PyObj.vnone), ("observation_timestamp", PyObj.vnone),
           ("video_reference_uuid", PyObj.vnone), ("imaged_moment_uuid", PyObj.vnone),
           ("elapsed_time_millis", PyObj.vnone), ("recorded_timestamp", PyObj.vnone),
           ("group", PyObj.vnone), ("activity", PyObj.vnone),
           ("associations", PyObj.vlist assocs),
           ("image_references", PyObj.vnone)]) := by
  constructor
  · intro t v
    exact from_dict_non_dataclass _ _ (by intro c flds h; cases h)
  · intro assocs
    simp [from_dict, fromFields, ObservationT, observationFields, AssociationT,
      ImageReferenceT, List.lookup]

/-- C2 (counterexample): the claim that keys absent from the declared
fields are ignored is false on the code.  Deserializing an `Association`
dict carrying the undeclared key `"extra"` does not drop that key and
convert the rest: `field_map["extra"]` raises `KeyError`, the bare `except`
fires, and the whole raw dict is returned unchanged — no typed record is
produced. -/
theorem from_dict_extra_key_counterexample :
    from_dict AssociationT
      (PyObj.vdict [("link_name", PyObj.vstr "x"), ("extra", PyObj.vstr "y")]) =
      PyObj.vdict [("link_name", PyObj.vstr "x"), ("extra", PyObj.vstr "y")] ∧
    PyObj.isRecord
      (PyObj.vdict [("link_name", PyObj.vstr "x"), ("extra", PyObj.vstr "y")]) =
      false := by
  refine ⟨?_, rfl⟩
  simp [from_dict, AssociationT, associationFields, List.lookup]

/-- C2 (amended): a key of the input mapping that is not among the declared
fields is not ignored; it makes the conversion degrade to the silent
fallback, returning the whole raw mapping unchanged instead of a typed
record. -/
theorem from_dict_extra_key_fallback (c : String)
    (flds : List (String × PyType)) (kvs : List (String × PyObj))
    (h : ∃ kv ∈ kvs, (List.lookup kv.1 flds).isNone) :
    from_dict (PyType.dataclass c flds) (PyObj.vdict kvs) = PyObj.vdict kvs :=
  from_dict_undeclared_key c flds kvs h

/-- Witness for C2 (amended) at a concrete input: a single undeclared key
`"foo"` makes `from_dict` on the `Association` schema return the raw
dict. -/
theorem from_dict_extra_key_fallback_witness :
    from_dict (PyType.dataclass "Association" associationFields)
      (PyObj.vdict [("foo", PyObj.vint 1)]) =
      PyObj.vdict [("foo", PyObj.vint 1)] :=
  from_dict_extra_key_fallback "Association" associationFields
    [("foo", PyObj.vint 1)] ⟨("foo", PyObj.vint 1), List.Mem.head _, by decide⟩

/-- C3: the conversion degrades silently.  `from_dict` is a total
function (the bare `except` catches every exception, so no error
propagates): when the target type is not a dataclass, or the data is not a
mapping, or some key of the mapping is not a declared field, the original
value is returned unchanged; in every case the result is either the
original value or a constructed typed record.  A plain scalar such as `5`
given where a record was expected comes back as `5`. -/
theorem from_dict_silent_fallback (t : PyType) (v : PyObj) :
    ((∀ c flds, t ≠ PyType.dataclass c flds) → from_dict t v = v) ∧
    ((∀ kvs, v ≠ PyObj.vdict kvs) → from_dict t v = v) ∧
    (∀ c flds kvs, t = PyType.dataclass c flds → v = PyObj.vdict kvs →
      (∃ kv ∈ kvs, (List.lookup kv.1 flds).isNone) → from_dict t v = v) ∧
    (from_dict t v = v ∨
      ∃ c flds kvs, t = PyType.dataclass c flds ∧ v = PyObj.vdict kvs ∧
        from_dict t v = PyObj.vinst c (fromFields flds kvs)) ∧
    from_dict t (PyObj.vint 5) = PyObj.vint 5 := by
  refine ⟨from_dict_non_dataclass t v, from_dict_non_dict t v, ?_, ?_, ?_⟩
  · intro c flds kvs ht hv h
    subst ht
    subst hv
    exact from_dict_undeclared_key c flds kvs h
  · exact from_dict_classify t v
  · exact from_dict_non_dict t _ (by intro kvs h; cases h)

/-- Witness for C3 at concrete inputs: a scalar where a
`CachedAncillaryDatum` was expected is returned unchanged, and a list where
an `Observation` was expected is returned unchanged. -/
theorem from_dict_silent_fallback_witness :
    from_dict CachedAncillaryDatumT (PyObj.vint 5) = PyObj.vint 5 ∧
    from_dict ObservationT (PyObj.vlist [PyObj.vint 1]) =
      PyObj.vlist [PyObj.vint 1] :=
  ⟨(from_dict_silent_fallback CachedAncillaryDatumT (PyObj.vint 5)).2.2.2.2,
   (from_dict_silent_fallback ObservationT (PyObj.vlist [PyObj.vint 1])).2.1
     (by intro kvs h; cases h)⟩

/-- C4: `handle_status` succeeds (returns normally, leaving the body to the
caller) exactly on status 200; on 400 it raises `BadRequestError` carrying
the decoded body; on 404 it raises `NotFoundError` carrying the decoded
body; on 504 it raises the gateway `TimeoutError` with no payload; on every
other status it raises the generic `Exception` wrapping the full response.
Being a plain function of the response, it has no effect on any client. -/
theorem handle_status_spec (r : HttpResponse) :
    (handle_status r = .ok () ↔ r.status_code = 200) ∧
    (r.status_code = 400 →
      handle_status r = .error (.badRequestError r.content)) ∧
    (r.status_code = 404 →
      handle_status r = .error (.notFoundError r.content)) ∧
    (r.status_code = 504 → handle_status r = .error .timeoutError) ∧
    (r.status_code ∉ ([200, 400, 404, 504] : List Nat) →
      handle_status r = .error (.genericException r)) := by
  unfold handle_status
  split_ifs with h1 h2 h3 h4 <;> simp_all

/-- Witness for C4 at the concrete statuses 200, 400, 404, 504 and 500,
including the spec example that a 404 with body "no such id" yields
`NotFoundError("no such id")`. -/
theorem handle_status_spec_witness :
    handle_status ⟨200, "body"⟩ = .ok () ∧
    handle_status ⟨400, "bad field"⟩ = .error (.badRequestError "bad field") ∧
    handle_status ⟨404, "no such id"⟩ = .error (.notFoundError "no such id") ∧
    handle_status ⟨504, ""⟩ = .error .timeoutError ∧
    handle_status ⟨500, "oops"⟩ = .error (.genericException ⟨500, "oops"⟩) :=
  ⟨(handle_status_spec ⟨200, "body"⟩).1.mpr rfl,
   (handle_status_spec ⟨400, "bad field"⟩).2.1 rfl,
   (handle_status_spec ⟨404, "no such id"⟩).2.2.1 rfl,
   (handle_status_spec ⟨504, ""⟩).2.2.2.1 rfl,
   (handle_status_spec ⟨500, "oops"⟩).2.2.2.2 (by decide)⟩

/-- C5: `url_to` depends only on the non-empty segments of the endpoint:
two path spellings that split on `'/'` into the same non-empty segments
(so spellings differing only in leading, trailing or repeated separators)
yield the identical URL; in particular `"a/b"`, `"/a/b/"` and `"a//b"` all
build the same URL on every client. -/
theorem url_to_separator_invariant :
    (∀ (m : Microservice) (p q : String),
      (splitSlash p.data).filter (fun s => !s.isEmpty) =
        (splitSlash q.data).filter (fun s => !s.isEmpty) →
      m.url_to p = m.url_to q) ∧
    (∀ m : Microservice,
      m.url_to "a/b" = m.url_to "/a/b/" ∧ m.url_to "a/b" = m.url_to "a//b") := by
  have key : ∀ (m : Microservice) (p q : String),
      (splitSlash p.data).filter (fun s => !s.isEmpty) =
        (splitSlash q.data).filter (fun s => !s.isEmpty) →
      m.url_to p = m.url_to q := by
    intro m p q h
    unfold Microservice.url_to
    rw [h]
  exact ⟨key, fun m => ⟨key m _ _ (by decide), key m _ _ (by decide)⟩⟩

/-- Witness for C5 at a concrete client and concrete equivalent spellings
differing in leading, trailing and repeated separators. -/
theorem url_to_separator_invariant_witness :
    Microservice.url_to ⟨"http://h/", ""⟩ "x/y" =
      Microservice.url_to ⟨"http://h/", ""⟩ "//x//y//" :=
  url_to_separator_invariant.1 ⟨"http://h/", ""⟩ "x/y" "//x//y//" (by decide)

/-- C6 (counterexample): the claimed monotonicity of the authentication
state is false on the code for one family of responses.  Starting from a
fresh client on `"http://h"`, a first authenticate call answered 200 with
access token `"tok"` makes the session authenticated; a second
authenticate call answered 200 with an *empty* access token succeeds,
stores the empty token, and the session reports unauthenticated again —
a transition from authenticated back to unauthenticated.  (It also shows a
200 answer does not always transition to authenticated: the token must be
non-empty, since `authenticated` is `self._jwt != ''`.) -/
theorem authenticate_empty_token_counterexample :
    Microservice.init "http://h" = some ⟨"http://h/", ""⟩ ∧
    Microservice.authenticate ⟨"http://h/", ""⟩ "s1" ⟨200, "tok"⟩ =
      .ok ⟨"http://h/", "tok"⟩ ∧
    Microservice.authenticated ⟨"http://h/", "tok"⟩ = true ∧
    Microservice.authenticate ⟨"http://h/", "tok"⟩ "s2" ⟨200, ""⟩ =
      .ok ⟨"http://h/", ""⟩ ∧
    Microservice.authenticated ⟨"http://h/", ""⟩ = false :=
  ⟨by decide, rfl, by decide, rfl, by decide⟩

/-- C6 (amended): the authentication state machine, with the one proviso
the counterexample forces.  A freshly constructed client is
unauthenticated.  An authenticate call answered 200 stores the returned
access token, and the resulting session is authenticated exactly when that
token is non-empty (so it transitions to authenticated whenever the server
returns a non-empty token).  An authenticate call answered any other
status raises `AuthenticationError` carrying the secret used and returns
no new state, so the prior state stays untouched.  Consequently no
operation ever transitions an authenticated session back to
unauthenticated, except a 200-answered authenticate whose returned token
is empty. -/
theorem authenticate_state_machine
    (m : Microservice) (secret : String) (r : AuthResponse) :
    (∀ base m0, Microservice.init base = some m0 → m0.authenticated = false) ∧
    (r.status_code = 200 →
      m.authenticate secret r = .ok ⟨m._base_url, r.access_token⟩ ∧
      ((⟨m._base_url, r.access_token⟩ : Microservice).authenticated = true ↔
        r.access_token ≠ "")) ∧
    (r.status_code ≠ 200 →
      m.authenticate secret r = .error (.authenticationError secret)) ∧
    (∀ m2, m.authenticate secret r = .ok m2 → m.authenticated = true →
      r.access_token ≠ "" → m2.authenticated = true) := by
  refine ⟨?_, ?_, ?_, ?_⟩
  · intro base m0 h
    unfold Microservice.init at h
    cases hl : base.data.getLast? with
    | none => rw [hl] at h; cases h
    | some c =>
        rw [hl] at h
        cases h
        rfl
  · intro h
    unfold Microservice.authenticate
    simp [h, Microservice.authenticated]
  · intro h
    unfold Microservice.authenticate
    simp [h]
  · intro m2 h hauth htok
    unfold Microservice.authenticate at h
    by_cases h200 : r.status_code = 200
    · simp [h200] at h
      subst h
      simpa [Microservice.authenticated] using htok
    · simp [h200] at h

/-- Witness for C6 (amended) at concrete inputs: a 200 answer with a
non-empty token authenticates, and a 401 answer raises
`AuthenticationError` carrying the secret. -/
theorem authenticate_state_machine_witness :
    Microservice.authenticate ⟨"b/", ""⟩ "sec" ⟨200, "tok"⟩ =
      .ok ⟨"b/", "tok"⟩ ∧
    Microservice.authenticate ⟨"b/", ""⟩ "sec" ⟨401, ""⟩ =
      .error (.authenticationError "sec") :=
  ⟨((authenticate_state_machine ⟨"b/", ""⟩ "sec" ⟨200, "tok"⟩).2.1 rfl).1,
   (authenticate_state_machine ⟨"b/", ""⟩ "sec" ⟨401, ""⟩).2.2.1 (by decide)⟩

/-- C7: a privileged operation on an unauthenticated client raises
`AuthenticationMissingError` and issues no request (the model yields an
error and no `Request` value, since `self._authorization_header` raises
while the arguments of `requests.post` are evaluated); on an authenticated
client the authorization-header accessor returns the bearer header built
from the stored token, and the issued request carries it. -/
theorem privileged_requires_auth (m : Microservice) (d : CachedAncillaryDatum) :
    (m.authenticated = false →
      Annosaurus.create_ancillary_datum m d = .error .authenticationMissingError ∧
      m._authorization_header = .error .authenticationMissingError) ∧
    (m.authenticated = true →
      m._authorization_header = .ok [("Authorization", "BEARER " ++ m._jwt)] ∧
      Annosaurus.create_ancillary_datum m d =
        .ok ⟨"POST", m.url_to "v1/ancillarydata",
             [("Authorization", "BEARER " ++ m._jwt)], d.properties⟩) := by
  constructor
  · intro h
    have hh : m._authorization_header = .error .authenticationMissingError := by
      unfold Microservice._authorization_header
      simp [h]
    refine ⟨?_, hh⟩
    unfold Annosaurus.create_ancillary_datum
    rw [hh]
  · intro h
    have hh : m._authorization_header =
        .ok [("Authorization", "BEARER " ++ m._jwt)] := by
      unfold Microservice._authorization_header
      simp [h]
    refine ⟨hh, ?_⟩
    unfold Annosaurus.create_ancillary_datum
    rw [hh]

/-- Witness for C7 at concrete clients: an unauthenticated client gets
`AuthenticationMissingError` from the privileged call, and an
authenticated one gets its bearer header. -/
theorem privileged_requires_auth_witness :
    Annosaurus.create_ancillary_datum ⟨"http://h/", ""⟩ {} =
      .error .authenticationMissingError ∧
    Microservice._authorization_header ⟨"http://h/", "tok"⟩ =
      .ok [("Authorization", "BEARER " ++ "tok")] :=
  ⟨((privileged_requires_auth ⟨"http://h/", ""⟩ {}).1 rfl).1,
   ((privileged_requires_auth ⟨"http://h/", "tok"⟩ {}).2 rfl).1⟩

/-- C8 (counterexample): the claim that the stored base address always ends
in a single separator is false on the code when the given address already
ends in repeated separators.  Constructing a client on `"a//"` stores
`"a//"` unchanged (the constructor only appends `'/'` when the last
character is not already `'/'`), and `"a//"` ends in two separators, not
one. -/
theorem init_double_separator_counterexample :
    Microservice.init "a//" = some ⟨"a//", ""⟩ ∧ ¬ endsInSingleSep "a//" := by
  constructor
  · decide
  · unfold endsInSingleSep
    decide

/-- C8 (amended): for every non-empty base address, construction stores an
empty token and a base address that ends in a separator: the address is
stored unchanged when its last character is already `'/'` (even when it
ends in several separators) and with a single `'/'` appended otherwise.
No request value is involved: the constructor is a pure function of the
address. -/
theorem init_appends_separator (base : String) (h : base ≠ "") :
    ∃ m, Microservice.init base = some m ∧ m._jwt = "" ∧
      m._base_url.data.getLast? = some '/' ∧
      (base.data.getLast? = some '/' → m._base_url = base) ∧
      (base.data.getLast? ≠ some '/' → m._base_url = base ++ "/") := by
  cases hl : base.data.getLast? with
  | none => exact absurd (String.ext (List.getLast?_eq_none_iff.mp hl)) h
  | some c =>
      by_cases hc : c = '/'
      · subst hc
        refine ⟨⟨base ++ "", ""⟩, ?_, rfl, ?_, ?_, ?_⟩
        · unfold Microservice.init
          rw [hl]
          simp
        · simpa using hl
        · intro _
          simp
        · intro hne
          exact absurd rfl hne
      · refine ⟨⟨base ++ "/", ""⟩, ?_, rfl, ?_, ?_, ?_⟩
        · unfold Microservice.init
          rw [hl]
          simp [hc]
        · rw [String.data_append]
          simp
        · intro heq
          exact absurd (Option.some.inj heq) hc
        · intro _
          rfl

/-- Witness for C8 (amended) at concrete addresses: `"abc"` gains a
trailing separator and `"abc/"` is stored unchanged. -/
theorem init_appends_separator_witness :
    (∃ m, Microservice.init "abc" = some m ∧ m._jwt = "" ∧
      m._base_url.data.getLast? = some '/' ∧ m._base_url = "abc" ++ "/") ∧
    (∃ m, Microservice.init "abc/" = some m ∧ m._jwt = "" ∧
      m._base_url.data.getLast? = some '/' ∧ m._base_url = "abc/") := by
  constructor
  · obtain ⟨m, h1, h2, h3, -, h5⟩ := init_appends_separator "abc" (by decide)
    exact ⟨m, h1, h2, h3, h5 (by decide)⟩
  · obtain ⟨m, h1, h2, h3, h4, -⟩ := init_appends_separator "abc/" (by decide)
    exact ⟨m, h1, h2, h3, h4 (by decide)⟩

/-- C9: the non-null projection `properties` of a `CachedAncillaryDatum`
contains an entry `(k, v)` exactly when the declared field `k` holds the
non-null value `v` in the record (field names preserved, nothing else
included); and a record with only one field set projects to the one-entry
mapping containing exactly that field. -/
theorem properties_nonnull_projection :
    (∀ (d : CachedAncillaryDatum) (k : String) (v : FieldValue),
      (k, v) ∈ d.properties ↔ (k, some v) ∈ d.asdict) ∧
    (∀ q : Rat,
      ({ latitude := some q } : CachedAncillaryDatum).properties =
        [("latitude", FieldValue.f q)]) := by
  constructor
  · intro d k v
    simp only [CachedAncillaryDatum.properties, List.mem_filterMap]
    constructor
    · rintro ⟨⟨k2, ov⟩, hmem, hf⟩
      cases ov with
      | none => simp at hf
      | some w =>
          simp at hf
          obtain ⟨hk, hv⟩ := hf
          subst hk
          subst hv
          exact hmem
    · intro hmem
      exact ⟨(k, some v), hmem, rfl⟩
  · intro q
    rfl

/-- C10: construction on the empty base address produces no client —
`base_url[-1]` raises `IndexError` before any state is stored — while every
non-empty base address does produce one, so a non-empty base address is an
unstated precondition of construction. -/
theorem init_empty_precondition :
    Microservice.init "" = none ∧
    ∀ base : String, base ≠ "" → ∃ m, Microservice.init base = some m := by
  constructor
  · rfl
  · intro base h
    unfold Microservice.init
    cases hl : base.data.getLast? with
    | none => exact absurd (String.ext (List.getLast?_eq_none_iff.mp hl)) h
    | some c => exact ⟨_, rfl⟩

/-- Witness for C10 at a concrete non-empty address. -/
theorem init_empty_precondition_witness :
    ∃ m, Microservice.init "x" = some m :=
  init_empty_precondition.2 "x" (by decide)
